import Mathlib

/-!
Verification of the `baselog` module (src/baselog/baselog.py): a shallow
embedding in Lean 4 of the `BaseLog` class — its zero-pad width computation
`zeropad_fmt`, its uncaught-exception handler `handle_uncaught_exception`,
and its sink-configuration routine `setup_loggers` — together with theorems
settling the specification's claims about them.
-/

namespace Baselog

/-! ## Python string primitives used by the module -/

/-- Python whitespace characters recognised by `str.rstrip()` (ASCII range):
space, tab, linefeed, carriage return, vertical tab, form feed. -/
def isPySpace (c : Char) : Bool :=
  c = ' ' || c = '\t' || c = '\n' || c = '\r' || c = '\x0b' || c = '\x0c'

/-- Python `str.rstrip()` with no argument: remove trailing whitespace. -/
def pyRstrip (s : String) : String :=
  ((s.data.reverse.dropWhile isPySpace).reverse).asString

/-- Worker for `pySplitlines`: `acc` holds the current (reversed) line.
A trailing line without a final newline is emitted; a final newline emits
nothing further, so `"".splitlines() = []` and `"a\n".splitlines() = ["a"]`. -/
def pySplitlinesAux : List Char → List Char → List String
  | [], [] => []
  | [], acc => [acc.reverse.asString]
  | '\r' :: '\n' :: rest, acc => acc.reverse.asString :: pySplitlinesAux rest []
  | '\r' :: rest, acc => acc.reverse.asString :: pySplitlinesAux rest []
  | '\n' :: rest, acc => acc.reverse.asString :: pySplitlinesAux rest []
  | c :: rest, acc => pySplitlinesAux rest (c :: acc)

/-- Python `str.splitlines()` (restricted to the line boundaries
`"\n"`, `"\r"`, `"\r\n"`): split into lines, not keeping line breaks;
a terminal line break does not produce a trailing empty line. -/
def pySplitlines (s : String) : List String :=
  pySplitlinesAux s.data []

/-- Rendering of the printf conversion `%0{width}d` at a non-negative
argument `n`: the decimal digits of `n`, left-padded with zeros to `width`. -/
def padZero (width : Nat) (n : Nat) : String :=
  let s := toString n
  (List.replicate (width - s.length) '0').asString ++ s

/-! ## `BaseLog.zeropad_fmt` -/

/-- The field width computed inside `BaseLog.zeropad_fmt(maxval)`:
`1` when `maxval == 0`, else `1` (positive) or `2` (negative, room for the
sign) plus `int(math.log10(abs(maxval)))`, the floor base-10 logarithm. -/
def zeropadLen (maxval : Int) : Nat :=
  if maxval = 0 then 1
  else (if maxval > 0 then 1 else 2) + Nat.log 10 maxval.natAbs

/-- `BaseLog.zeropad_fmt(maxval)`: the printf template `"%0{length}d"`. -/
def zeropad_fmt (maxval : Int) : String :=
  "%0" ++ toString (zeropadLen maxval) ++ "d"

/-! ## `BaseLog.handle_uncaught_exception`

The handler logs CRITICAL lines through the root logger. We model the
sequence of rendered log messages it emits, in order, as a `List String`.
Inputs: the exception type's `__name__`, the result of `str(exception)`,
and — when a traceback is present — the frame strings produced by
`traceback.format_exception` (each frame may be multi-line). -/

/-- The rendered CRITICAL lines emitted by
`BaseLog.handle_uncaught_exception(exception_type, exception, _traceback)`:
one `uncaught {name} exception:` header; one
`exception L{i, zero-padded}: {line.rstrip()}` per line of
`str(exception).splitlines()`; and, when `_traceback is not None`, one
`traceback L{i, zero-padded}: {line.rstrip()}` per line of the flattened
`frame.splitlines()` over the frames from `traceback.format_exception`. -/
def handle_uncaught_exception (typeName : String) (excStr : String)
    (frames : Option (List String)) : List String :=
  let exception_lines := pySplitlines excStr
  let w := zeropadLen exception_lines.length
  let msgLines := exception_lines.enum.map
    (fun p => "exception L" ++ padZero w p.1 ++ ": " ++ pyRstrip p.2)
  let tbLines :=
    match frames with
    | none => []
    | some fs =>
      let tb_lines := (fs.map pySplitlines).flatten
      let wt := zeropadLen tb_lines.length
      tb_lines.enum.map
        (fun p => "traceback L" ++ padZero wt p.1 ++ ": " ++ pyRstrip p.2)
  ("uncaught " ++ typeName ++ " exception:") :: msgLines ++ tbLines

/-- The handler with its two fallible collaborators made explicit:
`str(exception)` (which runs the exception's `__str__` and may itself raise)
and `traceback.format_exception` (which may raise while rendering frames).
The handler body contains no `try`/`except`, so a failure in either
collaborator propagates out of the handler: `Except.error` models a raised
exception escaping `handle_uncaught_exception`. -/
def handle_uncaught_exception_fallible (typeName : String)
    (strExc : Except Unit String)
    (fmtTrace : Option (Except Unit (List String))) :
    Except Unit (List String) := do
  let excStr ← strExc
  match fmtTrace with
  | none => pure (handle_uncaught_exception typeName excStr none)
  | some ft => do
    let frames ← ft
    pure (handle_uncaught_exception typeName excStr (some frames))

/-! ## `BaseLog.__init__` / `BaseLog.setup_loggers`

The constructor stores its parameters (applying `x or DEFAULT` defaulting)
and calls `setup_loggers`, which attaches a console handler, installs
`sys.excepthook`, and — when `log_dir` is truthy — creates the directory if
missing, derives the file name and path, and attaches a file handler.
Filesystem and clock effects (`os.path.isdir`, `os.makedirs`,
`logging.FileHandler` opening the file, `time.strftime`) are externals,
modelled by an `Env`; a raised `OSError` from `os.makedirs` or from opening
the file is modelled as a `SetupError` returned alongside the state the
object holds at the moment the exception propagates. -/

/-- The five log severities accepted for handler levels. -/
inductive LogLevel
  | DEBUG | INFO | WARNING | ERROR | CRITICAL
deriving DecidableEq, Repr

/-- `DEFAULT_LOGFMT` from the module. -/
def DEFAULT_LOGFMT : String := "%(asctime)s - %(name)s - %(levelname)s - %(message)s"

/-- `DEFAULT_DATEFMT` from the module. -/
def DEFAULT_DATEFMT : String := "%Y-%m-%dT%H:%M:%S%z"

/-- Python `opt or default` for an optional string: `None` and `""` are
falsy, so both fall back to the default. -/
def pyOrDefault : Option String → String → String
  | none, d => d
  | some s, d => if s = "" then d else s

/-- Python truthiness of an optional string (`if self.log_dir:`):
`None` and `""` are falsy. -/
def pyTruthy : Option String → Bool
  | none => false
  | some s => s ≠ ""

/-- Python `os.path.join(a, b)` (POSIX, two arguments): `b` if absolute,
else `a` and `b` joined with a single separator. -/
def osPathJoin (a b : String) : String :=
  if b.startsWith "/" then b
  else if a = "" || a.endsWith "/" then a ++ b
  else a ++ "/" ++ b

/-- A handler attached to the root logger: either the console
`StreamHandler` or a `FileHandler` on `path`, with its own threshold
level, line format and date format. -/
structure LogHandler where
  isFile : Bool
  path : Option String
  level : LogLevel
  fmt : String
  datefmt : String
deriving DecidableEq, Repr

/-- The errors `setup_loggers` can raise: `os.makedirs` failing
(directory creation) and `logging.FileHandler` failing to open the log
file for append. -/
inductive SetupError
  | directoryCreation | fileOpen
deriving DecidableEq, Repr

/-- External effects visible to `setup_loggers`: whether
`os.path.isdir(log_dir)` holds, whether `os.makedirs(log_dir)` succeeds,
whether `logging.FileHandler(log_file)` opens the file, and the
`time.strftime` rendering of a date format. -/
structure Env where
  isdir : Bool
  makedirsOk : Bool
  fileOpenOk : Bool
  strftime : String → String

/-- The instance attributes of a `BaseLog` object, together with the
observable process state it mutates: the handlers attached to the root
logger and whether `sys.excepthook` points at this object's
`handle_uncaught_exception`. `log_file = none` means the `log_file`
attribute has never been assigned (the code only ever assigns it a
string). -/
structure BaseLogState where
  root_name : String
  log_dir : Option String
  log_file_name : Option String
  log_file : Option String
  console_log_level : LogLevel
  console_logfmt : String
  console_datefmt : String
  file_log_level : LogLevel
  file_logfmt : String
  file_datefmt : String
  rootLevelDebug : Bool
  handlers : List LogHandler
  excepthookIsOurs : Bool

/-- The console `StreamHandler` that `setup_loggers` builds: threshold
`console_log_level`, formatter from `console_logfmt`/`console_datefmt`. -/
def consoleHandler (st : BaseLogState) : LogHandler :=
  { isFile := false, path := none, level := st.console_log_level,
    fmt := st.console_logfmt, datefmt := st.console_datefmt }

/-- `BaseLog.setup_loggers`: set the root logger to DEBUG, attach the
console handler, install `sys.excepthook`, then — if `log_dir` is truthy —
create the directory when absent (raising on failure), derive
`log_file_name` when falsy as `{root_name}_{strftime(file_datefmt)}.log`,
set `log_file = os.path.join(log_dir, log_file_name)`, and attach a
`FileHandler` (raising if the file cannot be opened). The returned pair is
the object/process state when the call ends, and the raised error if one
propagated. -/
def setup_loggers (st0 : BaseLogState) (env : Env) :
    BaseLogState × Option SetupError :=
  let st := { st0 with rootLevelDebug := true }
  let st := { st with handlers := st.handlers ++ [consoleHandler st] }
  let st := { st with excepthookIsOurs := true }
  match st.log_dir with
  | none => (st, none)
  | some d =>
    if d = "" then (st, none)
    else if !env.isdir && !env.makedirsOk then (st, some .directoryCreation)
    else
      let derived := st.root_name ++ "_" ++ env.strftime st.file_datefmt ++ ".log"
      let st :=
        if pyTruthy st.log_file_name then st
        else { st with log_file_name := some derived }
      let lf := osPathJoin d (st.log_file_name.getD "")
      let st := { st with log_file := some lf }
      if !env.fileOpenOk then (st, some .fileOpen)
      else
        let fh : LogHandler :=
          { isFile := true, path := some lf, level := st.file_log_level,
            fmt := st.file_logfmt, datefmt := st.file_datefmt }
        ({ st with handlers := st.handlers ++ [fh] }, none)

/-- `BaseLog.__init__`: store the parameters, defaulting the four
format/datefmt strings with Python `or`, leave `log_file` unassigned,
then run `setup_loggers`. The fresh logger starts with no handlers and
`sys.excepthook` not ours. -/
def BaseLog_init (root_name : String) (log_dir : Option String)
    (log_file_name : Option String) (console_log_level : LogLevel)
    (console_logfmt : Option String) (console_datefmt : Option String)
    (file_log_level : LogLevel) (file_logfmt : Option String)
    (file_datefmt : Option String) (env : Env) :
    BaseLogState × Option SetupError :=
  let st : BaseLogState :=
    { root_name := root_name
      log_dir := log_dir
      log_file_name := log_file_name
      log_file := none
      console_log_level := console_log_level
      console_logfmt := pyOrDefault console_logfmt DEFAULT_LOGFMT
      console_datefmt := pyOrDefault console_datefmt DEFAULT_DATEFMT
      file_log_level := file_log_level
      file_logfmt := pyOrDefault file_logfmt DEFAULT_LOGFMT
      file_datefmt := pyOrDefault file_datefmt DEFAULT_DATEFMT
      rootLevelDebug := false
      handlers := []
      excepthookIsOurs := false }
  setup_loggers st env

/-- Reading `self.log_file`: if the attribute was assigned, instance
lookup yields its value; otherwise lookup falls through to
`BaseLog.__getattr__`, which forwards to `getattr(self.root_logger,
"log_file")`, and `logging.Logger` has no `log_file` attribute, so an
`AttributeError` is raised (`Except.error`). -/
def attr_log_file (st : BaseLogState) : Except Unit String :=
  match st.log_file with
  | some v => Except.ok v
  | none => Except.error ()

/-! ## Theorems settling the claims -/

/-- C1, counterexample: the claim says count 10 gives width 1, but
`zeropad_fmt(10)` computes width `1 + floor(log10(10)) = 2`, template
`"%02d"`, not width 1. -/
theorem C1_count10_width2 : zeropadLen 10 = 2 ∧ zeropad_fmt 10 = "%02d" := by
  have h : Nat.log 10 10 = 1 :=
    Nat.log_eq_of_pow_le_of_lt_pow (by norm_num) (by norm_num)
  have h2 : zeropadLen 10 = 2 := by simp [zeropadLen, h]
  exact ⟨h2, by unfold zeropad_fmt; rw [h2]; rfl⟩

/-- C1, amended: for every count `c ≥ 1` the computed width is
`1 + floor(log10(c))` — sized to the count itself rather than to the
largest index `c - 1` — which is always at least the `1 + floor(log10(c-1))`
digits the largest index needs (so no truncation), but is not minimal
(count 10 yields width 2 though the largest index 9 needs 1). -/
theorem C1_width_from_count (c : Nat) (h : 1 ≤ c) :
    zeropadLen c = 1 + Nat.log 10 c ∧
    1 + Nat.log 10 (c - 1) ≤ zeropadLen c := by
  have hc0 : (c : Int) ≠ 0 := by
    simpa using Nat.one_le_iff_ne_zero.mp h
  have hcpos : (0 : Int) < (c : Int) := by exact_mod_cast h
  have hval : zeropadLen c = 1 + Nat.log 10 c := by
    simp [zeropadLen, hc0, hcpos]
  refine ⟨hval, ?_⟩
  rw [hval]
  have := Nat.log_mono_right (b := 10) (Nat.sub_le c 1)
  omega

/-- C1, witness for the amended theorem at count 11. -/
theorem C1_width_from_count_witness :
    1 ≤ 11 ∧ (zeropadLen 11 = 1 + Nat.log 10 11 ∧
      1 + Nat.log 10 (11 - 1) ≤ zeropadLen 11) :=
  ⟨by norm_num, C1_width_from_count 11 (by norm_num)⟩

/-- C9, counterexample: the claim says every negative count yields width 1,
but `zeropad_fmt(-5)` computes width `2 + floor(log10(5)) = 2`. -/
theorem C9_negative_width2 : zeropadLen (-5) = 2 ∧ zeropad_fmt (-5) = "%02d" := by
  have h : Nat.log 10 5 = 0 := Nat.log_of_lt (by norm_num)
  have h2 : zeropadLen (-5) = 2 := by simp [zeropadLen, h]
  exact ⟨h2, by unfold zeropad_fmt; rw [h2]; rfl⟩

/-- C9, amended: a degenerate count of 0 yields width 1, but a negative
count `v` yields width `2 + floor(log10(|v|))` (one extra column reserved
for the sign), not width 1. -/
theorem C9_nonpositive (v : Int) (h : v ≤ 0) :
    zeropadLen v = if v = 0 then 1 else 2 + Nat.log 10 v.natAbs := by
  rcases eq_or_lt_of_le h with h0 | hneg
  · simp [zeropadLen, h0.symm]
  · have h0 : v ≠ 0 := ne_of_lt hneg
    have hnp : ¬ v > 0 := not_lt.mpr h
    simp [zeropadLen, h0, hnp]

/-- C9, witness for the amended theorem at `-5`. -/
theorem C9_nonpositive_witness :
    (-5 : Int) ≤ 0 ∧
      zeropadLen (-5) = if (-5 : Int) = 0 then 1 else 2 + Nat.log 10 (-5 : Int).natAbs :=
  ⟨by norm_num, C9_nonpositive (-5) (by norm_num)⟩

/-- C2, counterexample: for an exception whose `str` is the empty string,
`str(exception).splitlines()` is the empty list, so the loop over message
lines runs zero times: the handler's entire output is the single header
line, and no `"exception L0: "` line is logged (the claim says exactly one
is). -/
theorem C2_empty_message_no_L0 :
    pySplitlines "" = [] ∧
    handle_uncaught_exception "ValueError" "" none =
      ["uncaught ValueError exception:"] ∧
    "exception L0: " ∉ handle_uncaught_exception "ValueError" "" none := by
  refine ⟨rfl, rfl, ?_⟩
  decide

/-- C2, amended: a message whose string representation splits into zero
lines produces zero `exception L…` detail lines — the handler emits only
the `uncaught … exception:` header, not one empty-message line. -/
theorem C2_empty_message (typeName : String) :
    handle_uncaught_exception typeName "" none =
      ["uncaught " ++ typeName ++ " exception:"] := rfl

/-- C3, counterexample: the handler has no internal exception handling, so
when the message derivation (`str(exception)`) raises, the exception
propagates out of the handler instead of being swallowed. -/
theorem C3_derivation_failure_propagates :
    handle_uncaught_exception_fallible "ValueError" (Except.error ()) none =
      Except.error () ∧
    handle_uncaught_exception_fallible "ValueError" (Except.ok "msg")
      (some (Except.error ())) = Except.error () := ⟨rfl, rfl⟩

/-- C3, amended: the handler's own formatting is total — whenever the
message derivation and (if a trace is present) the trace rendering
succeed, the handler completes without raising, whatever the content
(empty, unusual, control characters); but a failure inside either
collaborator propagates out of the handler, nothing is swallowed. -/
theorem C3_total_when_collaborators_succeed (typeName excStr : String)
    (frames : Option (List String)) :
    handle_uncaught_exception_fallible typeName (Except.ok excStr)
      (frames.map Except.ok) =
      Except.ok (handle_uncaught_exception typeName excStr frames) := by
  cases frames <;> rfl

/-- C4, confirmed: for every error whose string representation splits into
exactly three lines and no traceback, the handler logs exactly one
`uncaught {type_name} exception:` line followed by exactly three
`exception L0/L1/L2:` lines (each with trailing whitespace stripped, the
width of 3 lines being one digit) and zero `traceback` lines. -/
theorem C4_three_lines_no_trace (typeName s l0 l1 l2 : String)
    (h : pySplitlines s = [l0, l1, l2]) :
    handle_uncaught_exception typeName s none =
      ["uncaught " ++ typeName ++ " exception:",
       "exception L0: " ++ pyRstrip l0,
       "exception L1: " ++ pyRstrip l1,
       "exception L2: " ++ pyRstrip l2] := by
  have hlog : Nat.log 10 3 = 0 := Nat.log_of_lt (by norm_num)
  have hw : zeropadLen 3 = 1 := by simp [zeropadLen, hlog]
  simp [handle_uncaught_exception, h, hw, List.enum, List.enumFrom]
  exact ⟨rfl, rfl, rfl⟩

/-- C4, witness at the three-line message `"one \ntwo\nthree\t"`. -/
theorem C4_three_lines_no_trace_witness :
    pySplitlines "one \ntwo\nthree\t" = ["one ", "two", "three\t"] ∧
    handle_uncaught_exception "RuntimeError" "one \ntwo\nthree\t" none =
      ["uncaught RuntimeError exception:",
       "exception L0: " ++ pyRstrip "one ",
       "exception L1: " ++ pyRstrip "two",
       "exception L2: " ++ pyRstrip "three\t"] :=
  ⟨rfl, C4_three_lines_no_trace "RuntimeError" "one \ntwo\nthree\t"
    "one " "two" "three\t" rfl⟩

/-- C5, confirmed: with a traceback present, the handler's output is its
no-trace output followed by one
`traceback L{i, zero-padded}: {line.rstrip()}` line per line of the
frames' flattened `splitlines`, indices from 0, the pad width computed
from the total flattened line count, and the number of traceback lines
equals that flattened count. -/
theorem C5_traceback_lines (typeName excStr : String) (frames : List String) :
    handle_uncaught_exception typeName excStr (some frames) =
      handle_uncaught_exception typeName excStr none ++
        ((frames.map pySplitlines).flatten).enum.map
          (fun p => "traceback L" ++
            padZero (zeropadLen ((frames.map pySplitlines).flatten).length) p.1 ++
            ": " ++ pyRstrip p.2) ∧
    (handle_uncaught_exception typeName excStr (some frames)).length =
      (handle_uncaught_exception typeName excStr none).length +
        ((frames.map pySplitlines).flatten).length := by
  constructor
  · simp [handle_uncaught_exception]
  · simp [handle_uncaught_exception]
    omega

/-- C6, confirmed: whenever construction ends with an error (the directory
cannot be created or the log file cannot be opened), the error is returned
to the caller, and the only handler attached is the console handler —
already attached, configured from the console parameters — with no file
handler. -/
theorem C6_abort_console_only (rn : String) (ld lfn : Option String)
    (cll : LogLevel) (clf cdf : Option String) (fll : LogLevel)
    (flf fdf : Option String) (env : Env) (err : SetupError)
    (h : (BaseLog_init rn ld lfn cll clf cdf fll flf fdf env).2 = some err) :
    (BaseLog_init rn ld lfn cll clf cdf fll flf fdf env).1.handlers =
      [{ isFile := false, path := none, level := cll,
         fmt := pyOrDefault clf DEFAULT_LOGFMT,
         datefmt := pyOrDefault cdf DEFAULT_DATEFMT }] ∧
    (err = SetupError.directoryCreation ∨ err = SetupError.fileOpen) := by
  refine ⟨?_, by cases err <;> simp⟩
  unfold BaseLog_init setup_loggers at h ⊢
  cases ld
  · simp at h
  · simp only [consoleHandler] at h ⊢
    repeat' split at h
    all_goals repeat' split
    all_goals simp_all

/-- C6, witness: a directory-creation failure aborts construction with
only the console handler attached. -/
theorem C6_abort_console_only_witness :
    (BaseLog_init "app" (some "/log") none LogLevel.DEBUG none none
        LogLevel.DEBUG none none ⟨false, false, false, fun _ => "ts"⟩).2 =
      some SetupError.directoryCreation ∧
    ((BaseLog_init "app" (some "/log") none LogLevel.DEBUG none none
        LogLevel.DEBUG none none ⟨false, false, false, fun _ => "ts"⟩).1.handlers =
      [{ isFile := false, path := none, level := LogLevel.DEBUG,
         fmt := pyOrDefault none DEFAULT_LOGFMT,
         datefmt := pyOrDefault none DEFAULT_DATEFMT }] ∧
     (SetupError.directoryCreation = SetupError.directoryCreation ∨
      SetupError.directoryCreation = SetupError.fileOpen)) :=
  ⟨rfl, C6_abort_console_only "app" (some "/log") none LogLevel.DEBUG none none
    LogLevel.DEBUG none none ⟨false, false, false, fun _ => "ts"⟩
    SetupError.directoryCreation rfl⟩

/-- C7, counterexample: with no directory configured, `log_file` is never
assigned (it stays unset rather than holding `None`), so reading
`file_path` falls through `__getattr__` to the underlying
`logging.Logger`, which has no such attribute: access raises
`AttributeError` instead of yielding `none` as the claim states. -/
theorem C7_no_directory_attribute_error :
    attr_log_file (BaseLog_init "app" none none LogLevel.DEBUG none none
      LogLevel.DEBUG none none ⟨false, false, false, fun _ => "ts"⟩).1 =
      Except.error () ∧
    (BaseLog_init "app" none none LogLevel.DEBUG none none
      LogLevel.DEBUG none none ⟨false, false, false, fun _ => "ts"⟩).1.log_file =
      none :=
  ⟨rfl, rfl⟩

/-- C7, amended: after successful construction with a (truthy) directory
and no explicit file name, the file name is derived as
`{name}_{strftime(file_datefmt)}.log` and `file_path` is the joined
`directory/file_name`; but when no directory is configured, `file_path`
is never populated — reading it is forwarded to the underlying logger and
raises `AttributeError`, rather than yielding `none`. -/
theorem C7_file_path_derivation (rn d : String) (cll fll : LogLevel)
    (clf cdf flf fdf : Option String) (env : Env) (hd : d ≠ "")
    (h : (BaseLog_init rn (some d) none cll clf cdf fll flf fdf env).2 = none) :
    ((BaseLog_init rn (some d) none cll clf cdf fll flf fdf env).1.log_file_name =
       some (rn ++ "_" ++ env.strftime (pyOrDefault fdf DEFAULT_DATEFMT) ++ ".log") ∧
     (BaseLog_init rn (some d) none cll clf cdf fll flf fdf env).1.log_file =
       some (osPathJoin d
         (rn ++ "_" ++ env.strftime (pyOrDefault fdf DEFAULT_DATEFMT) ++ ".log")) ∧
     attr_log_file (BaseLog_init rn (some d) none cll clf cdf fll flf fdf env).1 =
       Except.ok (osPathJoin d
         (rn ++ "_" ++ env.strftime (pyOrDefault fdf DEFAULT_DATEFMT) ++ ".log"))) ∧
    attr_log_file (BaseLog_init rn none none cll clf cdf fll flf fdf env).1 =
      Except.error () := by
  constructor
  · unfold BaseLog_init setup_loggers at h ⊢
    simp only [consoleHandler] at h ⊢
    repeat' split at h
    all_goals repeat' split
    all_goals simp_all [pyTruthy, attr_log_file]
  · rfl

/-- C7, witness: successful construction in `/log` derives the file name
from the default date format and joins the path. -/
theorem C7_file_path_derivation_witness :
    "/log" ≠ "" ∧
    (BaseLog_init "app" (some "/log") none LogLevel.DEBUG none none
        LogLevel.DEBUG none none ⟨true, true, true, fun f => "T" ++ f⟩).2 = none ∧
    (((BaseLog_init "app" (some "/log") none LogLevel.DEBUG none none
        LogLevel.DEBUG none none ⟨true, true, true, fun f => "T" ++ f⟩).1.log_file_name =
       some ("app" ++ "_" ++ ("T" ++ pyOrDefault none DEFAULT_DATEFMT) ++ ".log") ∧
      (BaseLog_init "app" (some "/log") none LogLevel.DEBUG none none
        LogLevel.DEBUG none none ⟨true, true, true, fun f => "T" ++ f⟩).1.log_file =
       some (osPathJoin "/log"
         ("app" ++ "_" ++ ("T" ++ pyOrDefault none DEFAULT_DATEFMT) ++ ".log")) ∧
      attr_log_file (BaseLog_init "app" (some "/log") none LogLevel.DEBUG none none
        LogLevel.DEBUG none none ⟨true, true, true, fun f => "T" ++ f⟩).1 =
       Except.ok (osPathJoin "/log"
         ("app" ++ "_" ++ ("T" ++ pyOrDefault none DEFAULT_DATEFMT) ++ ".log"))) ∧
     attr_log_file (BaseLog_init "app" none none LogLevel.DEBUG none none
        LogLevel.DEBUG none none ⟨true, true, true, fun f => "T" ++ f⟩).1 =
       Except.error ()) :=
  ⟨by simp, rfl, C7_file_path_derivation "app" "/log" LogLevel.DEBUG LogLevel.DEBUG
    none none none none ⟨true, true, true, fun f => "T" ++ f⟩ (by simp) rfl⟩

/-- C8, counterexample: the empty-string directory is non-null, yet
construction succeeds with no file handler attached — `if self.log_dir:`
tests Python truthiness, and `""` is falsy. -/
theorem C8_empty_string_dir_no_file_sink :
    (BaseLog_init "app" (some "") none LogLevel.DEBUG none none LogLevel.DEBUG
        none none ⟨false, false, false, fun _ => "ts"⟩).2 = none ∧
    (BaseLog_init "app" (some "") none LogLevel.DEBUG none none LogLevel.DEBUG
        none none ⟨false, false, false, fun _ => "ts"⟩).1.log_dir = some "" ∧
    some "" ≠ (none : Option String) ∧
    (BaseLog_init "app" (some "") none LogLevel.DEBUG none none LogLevel.DEBUG
        none none ⟨false, false, false, fun _ => "ts"⟩).1.handlers.map
      LogHandler.isFile = [false] :=
  ⟨rfl, rfl, by simp, rfl⟩

/-- C8, amended: once configuration completes without error, exactly one
console handler is always attached, and a file handler is attached iff the
configured directory is truthy (non-null **and** non-empty): the handler
list is console-then-file for a truthy directory and console only
otherwise. -/
theorem C8_sinks_iff_truthy_dir (rn : String) (ld lfn : Option String)
    (cll : LogLevel) (clf cdf : Option String) (fll : LogLevel)
    (flf fdf : Option String) (env : Env)
    (h : (BaseLog_init rn ld lfn cll clf cdf fll flf fdf env).2 = none) :
    (BaseLog_init rn ld lfn cll clf cdf fll flf fdf env).1.handlers.map
        LogHandler.isFile =
      if pyTruthy ld then [false, true] else [false] := by
  unfold BaseLog_init setup_loggers at h ⊢
  cases ld
  · simp [pyTruthy, consoleHandler]
  · simp only [consoleHandler] at h ⊢
    repeat' split at h
    all_goals repeat' split
    all_goals simp_all [pyTruthy]

/-- C8, witness: a successful construction with directory `/log` attaches
console then file. -/
theorem C8_sinks_iff_truthy_dir_witness :
    (BaseLog_init "app" (some "/log") none LogLevel.DEBUG none none
        LogLevel.DEBUG none none ⟨true, true, true, fun _ => "ts"⟩).2 = none ∧
    (BaseLog_init "app" (some "/log") none LogLevel.DEBUG none none
        LogLevel.DEBUG none none ⟨true, true, true, fun _ => "ts"⟩).1.handlers.map
      LogHandler.isFile =
      if pyTruthy (some "/log") then [false, true] else [false] :=
  ⟨rfl, C8_sinks_iff_truthy_dir "app" (some "/log") none LogLevel.DEBUG none none
    LogLevel.DEBUG none none ⟨true, true, true, fun _ => "ts"⟩ rfl⟩

/-- C10, confirmed: for every configuration and environment — including
those where construction aborts with a directory-creation or file-open
error — the final state has `sys.excepthook` pointing at this object's
handler, and the console handler is already the first handler attached:
the hook is installed right after the console sink and before any
file-sink logic runs. -/
theorem C10_excepthook_always_installed (rn : String) (ld lfn : Option String)
    (cll : LogLevel) (clf cdf : Option String) (fll : LogLevel)
    (flf fdf : Option String) (env : Env) :
    (BaseLog_init rn ld lfn cll clf cdf fll flf fdf env).1.excepthookIsOurs = true ∧
    (BaseLog_init rn ld lfn cll clf cdf fll flf fdf env).1.handlers.head? =
      some { isFile := false, path := none, level := cll,
             fmt := pyOrDefault clf DEFAULT_LOGFMT,
             datefmt := pyOrDefault cdf DEFAULT_DATEFMT } := by
  unfold BaseLog_init setup_loggers
  cases ld
  · simp [consoleHandler]
  · simp only [consoleHandler]
    repeat' split
    all_goals simp

end Baselog
